import Mathlib

/-!
Shallow embedding of the core of the `gbr` Game Boy emulator (Rust), for
checking its natural-language specification against the code.

Machine integers (`u8`, `u16`) are modelled as `Nat` with explicit `% 256`
resp. `% 65536` at the points where the Rust code wraps; where the Rust code
uses bit masks whose value matters to a claim, the masks are kept as bitwise
operations.  Rust's debug-mode overflow panics are noted in comments at the
few spots where they could occur; the embedding uses the wrapping (release)
semantics there.
-/

namespace Gbr

/-- CPU flags Z, N, H, C; mirrors `struct Flags` in src/cpu.rs. -/
structure Flags where
  zero : Bool
  subtraction : Bool
  half_carry : Bool
  carry : Bool
deriving DecidableEq

/-- Mirrors `Flags::set` (src/cpu.rs): decode a flag byte, Z from bit 7,
N from bit 6, H from bit 5, C from bit 4 (`(value >> k) & 1 == 1`). -/
def Flags.set (_f : Flags) (value : Nat) : Flags :=
  { zero := value.testBit 7
    subtraction := value.testBit 6
    half_carry := value.testBit 5
    carry := value.testBit 4 }

/-- Mirrors `impl Into<u8> for Flags` (src/cpu.rs): builds the flag byte with
`flags |= (zero as u8) << 7; ... << 6; ... << 5; (carry as u8) << 7`.
Note the source shifts the carry flag by 7, not 4. -/
def Flags.toByte (f : Flags) : Nat :=
  let flags : Nat := 0
  let flags := flags ||| (f.zero.toNat <<< 7)
  let flags := flags ||| (f.subtraction.toNat <<< 6)
  let flags := flags ||| (f.half_carry.toNat <<< 5)
  let flags := flags ||| (f.carry.toNat <<< 7)
  flags

/-- Mirrors `impl Default for Flags` (src/cpu.rs). -/
def Flags.default : Flags :=
  { zero := true, subtraction := false, half_carry := true, carry := true }

/-- Mirrors `struct Registers` in src/cpu.rs: eight 8-bit registers, the four
paired 16-bit views, SP, PC, and the decoded flags. -/
structure Registers where
  a : Nat
  b : Nat
  c : Nat
  d : Nat
  e : Nat
  h : Nat
  l : Nat
  af : Nat
  bc : Nat
  de : Nat
  hl : Nat
  sp : Nat
  pc : Nat
  flags : Flags
deriving DecidableEq

/-- Mirrors `impl Default for Registers` (src/cpu.rs, DMG power-up values). -/
def Registers.default : Registers :=
  { a := 0x01, b := 0x00, c := 0x13, d := 0x00, e := 0xd8, h := 0x01, l := 0x4d
    af := 0x01b0, bc := 0x0013, de := 0x00d8, hl := 0x014d
    sp := 0xfffe, pc := 0x0100, flags := Flags.default }

/-- Mirrors `enum R8` in src/cpu.rs. -/
inductive R8 where
  | A
  | B
  | C
  | D
  | E
  | H
  | L
deriving DecidableEq

/-- Mirrors `enum R16` in src/cpu.rs. -/
inductive R16 where
  | AF
  | BC
  | DE
  | HL
  | SP
  | PC
deriving DecidableEq

/-- Mirrors `Registers::get_r8` (src/cpu.rs). -/
def Registers.get_r8 (r : Registers) (register : R8) : Nat :=
  match register with
  | R8.A => r.a
  | R8.B => r.b
  | R8.C => r.c
  | R8.D => r.d
  | R8.E => r.e
  | R8.H => r.h
  | R8.L => r.l

/-- Mirrors `Registers::set_r8` (src/cpu.rs): writes the 8-bit register and
patches the paired 16-bit register with the source's masks.  The masks are
transcribed exactly as written, including the `0x0ff0` mask in the `L` arm. -/
def Registers.set_r8 (r : Registers) (register : R8) (value : Nat) : Registers :=
  match register with
  | R8.A => { r with a := value, af := (r.af &&& 0x00ff) ||| (value <<< 8) }
  | R8.B => { r with b := value, bc := (r.bc &&& 0x00ff) ||| (value <<< 8) }
  | R8.C => { r with c := value, bc := (r.bc &&& 0xff00) ||| value }
  | R8.D => { r with d := value, de := (r.de &&& 0x00ff) ||| (value <<< 8) }
  | R8.E => { r with e := value, de := (r.de &&& 0xff00) ||| value }
  | R8.H => { r with h := value, hl := (r.hl &&& 0x00ff) ||| (value <<< 8) }
  | R8.L => { r with l := value, hl := (r.hl &&& 0x0ff0) ||| value }

/-- Mirrors `Registers::get_r16` (src/cpu.rs). -/
def Registers.get_r16 (r : Registers) (register : R16) : Nat :=
  match register with
  | R16.AF => r.af
  | R16.BC => r.bc
  | R16.DE => r.de
  | R16.HL => r.hl
  | R16.SP => r.sp
  | R16.PC => r.pc

/-- Mirrors `extract_bytes` (src/lib.rs): `lsb = value & 0xff`,
`msb = (value >> 8) as u8`. -/
def extract_bytes (value : Nat) : Nat × Nat :=
  let lsb := value &&& 0xff
  let msb := (value >>> 8) &&& 0xff
  (msb, lsb)

/-- Mirrors `Registers::set_r16` (src/cpu.rs): writes the 16-bit register and
updates the 8-bit halves (for AF, the flag struct is decoded from the low
byte by `Flags::set`). -/
def Registers.set_r16 (r : Registers) (register : R16) (value : Nat) : Registers :=
  let msb := (extract_bytes value).1
  let lsb := (extract_bytes value).2
  match register with
  | R16.AF => { r with af := value, a := msb, flags := r.flags.set lsb }
  | R16.BC => { r with bc := value, b := msb, c := lsb }
  | R16.DE => { r with de := value, d := msb, e := lsb }
  | R16.HL => { r with hl := value, h := msb, l := lsb }
  | R16.SP => { r with sp := value }
  | R16.PC => { r with pc := value }

/-- Mirrors `struct Cpu` in src/cpu.rs: register file plus the interrupt
master enable flag. -/
structure Cpu where
  registers : Registers
  ime : Bool
deriving DecidableEq

/-- Mirrors `impl Default for Cpu` (src/cpu.rs). -/
def Cpu.default : Cpu :=
  { registers := Registers.default, ime := false }

/-- The 64 KiB guest address surface; mirrors `struct Memory` in
src/memory.rs (`block: [u8; 65536]`, modelled as a function). -/
structure Memory where
  block : Nat → Nat

/-- Mirrors `Memory::read` (src/memory.rs). -/
def Memory.read (m : Memory) (addr : Nat) : Nat :=
  m.block addr

/-- Mirrors `Memory::write` (src/memory.rs). -/
def Memory.write (m : Memory) (addr value : Nat) : Memory :=
  { block := fun i => if i = addr then value else m.block i }

/-- The zero-filled block `[0u8; 65536]` that `Memory::default` starts from
(src/memory.rs). -/
def Memory.zeroed : Memory :=
  { block := fun _ => 0 }

/-- Register addresses from `memory::registers` (src/memory.rs). -/
def DIV : Nat := 0xff04

/-- TIMA register address (src/memory.rs). -/
def TIMA : Nat := 0xff05

/-- TMA register address (src/memory.rs). -/
def TMA : Nat := 0xff06

/-- IF register address (src/memory.rs, `IF` and `INTERRUPT_FLAG`). -/
def IF : Nat := 0xff0f

/-- LY register address (src/memory.rs). -/
def LY : Nat := 0xff44

/-- IE register address (src/memory.rs, `IE` and `INTERRUPT_ENABLE_REGISTER`). -/
def IE : Nat := 0xffff

/-- Mirrors `interrupts::TIMER` (src/memory.rs / src/interrupts.rs): the
constant 0x02. -/
def TIMER : Nat := 0x02

/-- Mirrors `Memory::get_interrupt_registers` (src/memory.rs): reads the
byte at 0xFFFF (the IE register). -/
def Memory.get_interrupt_registers (m : Memory) : Nat :=
  m.block IE

/-- Mirrors `Memory::set_interrupt_registers` (src/memory.rs): writes the
byte at 0xFFFF (the IE register). -/
def Memory.set_interrupt_registers (m : Memory) (value : Nat) : Memory :=
  m.write IE value

/-- Mirrors `Memory::get_interrupt_flag` (src/memory.rs): reads 0xFF0F. -/
def Memory.get_interrupt_flag (m : Memory) : Nat :=
  m.block IF

/-- Mirrors `Memory::inc_tima` (src/memory.rs).  On `tima == 0xff` the source
sets `block[IE] = interrupts::TIMER` and `block[TIMA] = read(TMA)`; in both
cases it then runs `block[TIMA] += 1` (wrapping modelled with `% 256`;
a debug build would panic if that increment overflowed). -/
def Memory.inc_tima (m : Memory) : Memory :=
  let tima := m.read TIMA
  let m :=
    if tima = 0xff then
      let m := m.write IE TIMER
      m.write TIMA (m.read TMA)
    else m
  m.write TIMA ((m.read TIMA + 1) % 256)

/-- Mirrors `Memory::inc_scanline` (src/memory.rs): `LY += 1`, then reset to
0 when the new value reads back as 153. -/
def Memory.inc_scanline (m : Memory) : Memory :=
  let ly := m.read LY
  let m := m.write LY ((ly + 1) % 256)
  if m.read LY = 153 then m.write LY 0 else m

/-- Mirrors `struct Clock` (src/clock.rs). -/
structure Clock where
  m_cycles : Nat
  dots : Nat
deriving DecidableEq

/-- Mirrors `Clock::tick` (src/clock.rs): recompute `dots = m_cycles * 4`,
advance the scanline when `dots % 456 == 0`, and when `m_cycles > 143` OR
bit 0 into the byte returned by `get_interrupt_registers` (the IE register
at 0xFFFF) via `set_interrupt_registers`; finally reset `m_cycles` past 153. -/
def Clock.tick (c : Clock) (m : Memory) : Clock × Memory :=
  let dots := c.m_cycles * 4
  let m := if dots % 456 = 0 then m.inc_scanline else m
  let m :=
    if c.m_cycles > 143 then
      let vblank := m.get_interrupt_registers ||| 1
      m.set_interrupt_registers vblank
    else m
  let m_cycles := if c.m_cycles > 153 then 0 else c.m_cycles
  ({ m_cycles := m_cycles, dots := dots }, m)

/-- Mirrors `enum Interrupt` (src/interrupts.rs). -/
inductive Interrupt where
  | Joypad
  | Serial
  | Timer
  | Stat
  | VBlank
deriving DecidableEq

/-- Mirrors `Interrupt::get_interrupt` (src/interrupts.rs): matches the whole
byte against the values 0x00..0x04. -/
def Interrupt.get_interrupt (value : Nat) : Option Interrupt :=
  match value with
  | 0x04 => some Interrupt.Joypad
  | 0x03 => some Interrupt.Serial
  | 0x02 => some Interrupt.Timer
  | 0x01 => some Interrupt.Stat
  | 0x00 => some Interrupt.VBlank
  | _ => none

/-- Mirrors `enum Mnemonic` (src/lib.rs). -/
inductive Mnemonic where
  | PREFIX
  | LD
  | LDH
  | ADC
  | ADD
  | CP
  | DEC
  | INC
  | SBC
  | SUB
  | AND
  | CPL
  | OR
  | XOR
  | BIT
  | RES
  | SET
  | RL
  | RLA
  | RLC
  | RLCA
  | RR
  | RRA
  | RRC
  | RRCA
  | SLA
  | SRA
  | SRL
  | SWAP
  | CALL
  | JP
  | JR
  | RET
  | RETI
  | RST
  | CCF
  | SCF
  | POP
  | PUSH
  | DI
  | EI
  | HALT
  | DAA
  | NOP
  | STOP
deriving DecidableEq

/-- Mirrors `struct Instruction` (src/instructions.rs). -/
structure Instruction where
  mnemonic : Mnemonic
  bytes : Nat
  cycles : Nat
deriving DecidableEq

/-- Mirrors `nop` (src/instructions/misc.rs): returns the NOP instruction
and touches no state. -/
def nop : Instruction :=
  { mnemonic := Mnemonic.NOP, bytes := 1, cycles := 1 }

/-- Mirrors `di` (src/instructions/interrupts.rs): clear IME, `pc += 1`. -/
def di (cpu : Cpu) : Cpu × Instruction :=
  let cpu := { cpu with ime := false }
  let cpu := { cpu with registers := { cpu.registers with pc := (cpu.registers.pc + 1) % 65536 } }
  (cpu, { mnemonic := Mnemonic.DI, bytes := 1, cycles := 1 })

/-- Mirrors `ei` (src/instructions/interrupts.rs): only `pc += 1`; the
function itself does not touch IME (its doc comment says the flag is only
set after the instruction following EI). -/
def ei (cpu : Cpu) : Cpu × Instruction :=
  let cpu := { cpu with registers := { cpu.registers with pc := (cpu.registers.pc + 1) % 65536 } }
  (cpu, { mnemonic := Mnemonic.EI, bytes := 1, cycles := 1 })

/-- The mnemonic match at the end of `Cpu::execute` (src/cpu.rs): after the
dispatched handler returns, `Mnemonic::RETI | Mnemonic::EI` set IME to true
immediately; every other mnemonic leaves the CPU unchanged. -/
def Cpu.apply_mnemonic_effect (cpu : Cpu) (m : Mnemonic) : Cpu :=
  match m with
  | Mnemonic.NOP | Mnemonic.RST => cpu
  | Mnemonic.RETI | Mnemonic.EI => { cpu with ime := true }
  | _ => cpu

/-- One pass of `Cpu::execute` (src/cpu.rs) once the opcode has been
dispatched to `handler`: run the handler, then apply the mnemonic match on
the returned instruction; the returned `Nat` is `instruction.cycles`. -/
def Cpu.execute_with (cpu : Cpu) (handler : Cpu → Cpu × Instruction) : Cpu × Nat :=
  let (cpu, instruction) := handler cpu
  (cpu.apply_mnemonic_effect instruction.mnemonic, instruction.cycles)

/-- Mirrors `push_stack` (src/instructions/stack.rs):
`high = (n16 & 0xff00) >> 8` and `low = n16 & 0xff` are written as
`n16 / 256 % 256` and `n16 % 256`; `sp - 1` wraps (`% 65536`), as u16
subtraction does in release builds. -/
def push_stack (n16 : Nat) (regs : Registers) (mem : Memory) : Registers × Memory :=
  let high := n16 / 256 % 256
  let regs := regs.set_r16 R16.SP ((regs.sp + 65535) % 65536)
  let mem := mem.write regs.sp high
  let low := n16 % 256
  let regs := regs.set_r16 R16.SP ((regs.sp + 65535) % 65536)
  let mem := mem.write regs.sp low
  (regs, mem)

/-- Mirrors `pop_stack` (src/instructions/stack.rs): read low then high,
incrementing SP after each read (wrapping), then `set_r16(r16, n16)` where
`n16 = low | high << 8` (the two bytes occupy disjoint ranges, so the OR is
written as `low + high * 256`). -/
def pop_stack (r16 : R16) (regs : Registers) (mem : Memory) : Registers × Memory :=
  let low := mem.read regs.sp
  let n16 := low
  let regs := regs.set_r16 R16.SP ((regs.sp + 1) % 65536)
  let high := mem.read regs.sp
  let n16 := n16 + high * 256
  let regs := regs.set_r16 R16.SP ((regs.sp + 1) % 65536)
  (regs.set_r16 r16 n16, mem)

/-- Mirrors `call_n16` (src/instructions/jumps.rs): push `pc + 3`
(wrapping), then `pc = n16`.  The returned instruction is CALL with
6 cycles; only the state change matters here. -/
def call_n16 (n16 : Nat) (regs : Registers) (mem : Memory) : Registers × Memory :=
  let (regs, mem) := push_stack ((regs.pc + 3) % 65536) regs mem
  ({ regs with pc := n16 }, mem)

/-- Mirrors `System::handle_interrupt` (src/system.rs): feed the byte
returned by `get_interrupt_registers` (the IE register) to
`Interrupt::get_interrupt`; on a match, jump to the fixed handler address
via `call_n16`.  Nothing else is modified: IF is not cleared, IME is not
cleared, and no cycle cost is charged. -/
def handle_interrupt (cpu : Cpu) (mem : Memory) : Cpu × Memory :=
  match Interrupt.get_interrupt mem.get_interrupt_registers with
  | some interrupt =>
      let handler : Nat :=
        match interrupt with
        | Interrupt.VBlank => 0x40
        | Interrupt.Stat => 0x48
        | Interrupt.Timer => 0x50
        | Interrupt.Serial => 0x58
        | Interrupt.Joypad => 0x60
      let (regs, mem) := call_n16 handler cpu.registers mem
      ({ cpu with registers := regs }, mem)
  | none => (cpu, mem)

/-- Mirrors `add_8bit` (src/instructions/arithmetic_8bit.rs).  The source
first folds the carry into `b` (`let b = b + carry`, a u8 add, wrapping
modelled with `% 256`; a debug build would panic on `b = 0xFF, carry = 1`),
computes `half_carry = ((a & 0x0f) + (b & 0x0f) & 0x10) == 0x10` on the
folded `b`, then `overflowing_add`.  Returns `(sum, flags)`. -/
def add_8bit (a b : Nat) (carry_flag : Option Bool) : Nat × Nat :=
  let carry := match carry_flag with
    | some num => num.toNat
    | none => 0
  let b := (b + carry) % 256
  let half_carry := ((a % 16 + b % 16) &&& 0x10) == 0x10
  let sum := (a + b) % 256
  let carry := decide (a + b ≥ 256)
  let flags : Nat := 0
  let flags := flags ||| ((sum == 0).toNat <<< 7)
  let flags := flags ||| (0 <<< 6)
  let flags := flags ||| (half_carry.toNat <<< 5)
  let flags := flags ||| (carry.toNat <<< 4)
  (sum, flags)

/-- Mirrors `sub_8bit` (src/instructions/arithmetic_8bit.rs).
`half_carry = (a as i16 & 0x0f) - (b as i16 & 0x0f) < 0` ignores the carry;
the result is `a.overflowing_sub(b - carry)` (u8 wrapping, modelled mod 256;
a debug build would panic on `b = 0, carry = 1`); the carry flag is computed
as `b >= sum` on the original `b`.  Returns `(sum, flags)`. -/
def sub_8bit (a b : Nat) (carry_flag : Option Bool) : Nat × Nat :=
  let carry := match carry_flag with
    | some num => num.toNat
    | none => 0
  let a_mask : Int := (a : Int) % 16
  let b_mask : Int := (b : Int) % 16
  let half_carry := decide (a_mask - b_mask < 0)
  let bc := (b + 256 - carry) % 256
  let sum := (a + 256 - bc) % 256
  let carry := decide (b ≥ sum)
  let flags : Nat := 0
  let flags := flags ||| ((sum == 0).toNat <<< 7)
  let flags := flags ||| (1 <<< 6)
  let flags := flags ||| (half_carry.toNat <<< 5)
  let flags := flags ||| (carry.toNat <<< 4)
  (sum, flags)

/-- Mirrors `INSTRUCTION_SET` (src/instructions.rs), entry by entry, as the
mnemonic each table thunk produces.  The source array is declared
`[Thunk; 112]`: rows 1-3 (0x00-0x2F), the LD block (0x30-0x6F in table
order, rows 4-7 of the source) and nothing beyond, so the table has 112
entries, not 256. -/
def INSTRUCTION_SET : List Mnemonic :=
  [ Mnemonic.NOP, Mnemonic.LD, Mnemonic.LD, Mnemonic.INC,
    Mnemonic.INC, Mnemonic.DEC, Mnemonic.LD, Mnemonic.RLCA,
    Mnemonic.LD, Mnemonic.ADD, Mnemonic.LD, Mnemonic.DEC,
    Mnemonic.INC, Mnemonic.DEC, Mnemonic.LD, Mnemonic.RRCA,
    Mnemonic.STOP, Mnemonic.LD, Mnemonic.LD, Mnemonic.INC,
    Mnemonic.INC, Mnemonic.DEC, Mnemonic.LD, Mnemonic.RLA,
    Mnemonic.JR, Mnemonic.ADD, Mnemonic.LD, Mnemonic.DEC,
    Mnemonic.INC, Mnemonic.DEC, Mnemonic.LD, Mnemonic.RRA,
    Mnemonic.JR, Mnemonic.LD, Mnemonic.LD, Mnemonic.INC,
    Mnemonic.INC, Mnemonic.DEC, Mnemonic.LD, Mnemonic.DAA,
    Mnemonic.JR, Mnemonic.ADD, Mnemonic.LD, Mnemonic.DEC,
    Mnemonic.INC, Mnemonic.DEC, Mnemonic.LD, Mnemonic.RRA,
    Mnemonic.LD, Mnemonic.LD, Mnemonic.LD, Mnemonic.LD,
    Mnemonic.LD, Mnemonic.LD, Mnemonic.LD, Mnemonic.LD,
    Mnemonic.LD, Mnemonic.LD, Mnemonic.LD, Mnemonic.LD,
    Mnemonic.LD, Mnemonic.LD, Mnemonic.LD, Mnemonic.LD,
    Mnemonic.LD, Mnemonic.LD, Mnemonic.LD, Mnemonic.LD,
    Mnemonic.LD, Mnemonic.LD, Mnemonic.LD, Mnemonic.LD,
    Mnemonic.LD, Mnemonic.LD, Mnemonic.LD, Mnemonic.LD,
    Mnemonic.LD, Mnemonic.LD, Mnemonic.LD, Mnemonic.LD,
    Mnemonic.LD, Mnemonic.LD, Mnemonic.LD, Mnemonic.LD,
    Mnemonic.LD, Mnemonic.LD, Mnemonic.LD, Mnemonic.LD,
    Mnemonic.LD, Mnemonic.LD, Mnemonic.LD, Mnemonic.LD,
    Mnemonic.LD, Mnemonic.LD, Mnemonic.LD, Mnemonic.LD,
    Mnemonic.LD, Mnemonic.LD, Mnemonic.LD, Mnemonic.LD,
    Mnemonic.LD, Mnemonic.LD, Mnemonic.HALT, Mnemonic.LD,
    Mnemonic.LD, Mnemonic.LD, Mnemonic.LD, Mnemonic.LD,
    Mnemonic.LD, Mnemonic.LD, Mnemonic.LD, Mnemonic.LD ]

/-- The table lookup done by `Cpu::execute` (src/cpu.rs):
`INSTRUCTION_SET[opcode_byte as usize]`.  An index past the end of the
array is an out-of-bounds panic in Rust; here it is `none`. -/
def execute_lookup (opcode_byte : Nat) : Option Mnemonic :=
  INSTRUCTION_SET[opcode_byte]?

/-- C1 (code evaluated at the failing input): with IME set, IE = 0x04 and
IF = 0x04 the pending interrupt is Timer (lowest set bit 2 of IE & IF), so
the claim requires the jump vector 0x50, IF bit 2 cleared, IME cleared and
the current PC (0x1234) pushed.  `handle_interrupt` instead decodes the raw
IE byte 0x04 as Joypad and jumps to 0x60, leaves IME set, leaves IF intact,
and pushes PC + 3 = 0x1237 (low byte 0x37, not 0x34). -/
theorem handle_interrupt_failing_input_eval :
    (handle_interrupt
        { registers := { Registers.default with pc := 0x1234 }, ime := true }
        ((Memory.zeroed.write IE 0x04).write IF 0x04)).1.registers.pc = 0x60 ∧
    (handle_interrupt
        { registers := { Registers.default with pc := 0x1234 }, ime := true }
        ((Memory.zeroed.write IE 0x04).write IF 0x04)).1.ime = true ∧
    (handle_interrupt
        { registers := { Registers.default with pc := 0x1234 }, ime := true }
        ((Memory.zeroed.write IE 0x04).write IF 0x04)).2.read IF = 0x04 ∧
    (handle_interrupt
        { registers := { Registers.default with pc := 0x1234 }, ime := true }
        ((Memory.zeroed.write IE 0x04).write IF 0x04)).2.read 0xfffd = 0x12 ∧
    (handle_interrupt
        { registers := { Registers.default with pc := 0x1234 }, ime := true }
        ((Memory.zeroed.write IE 0x04).write IF 0x04)).2.read 0xfffc = 0x37 := by
  decide

/-- C2 (code evaluated at the failing input): with TIMA = 0xFF and
TMA = 0x42, `Memory::inc_tima` leaves TIMA = 0x43 (TMA + 1, not TMA), does
not touch the IF register (bit 2 stays clear), and instead overwrites the
IE register at 0xFFFF with the constant 0x02 (bit 1, not bit 2). -/
theorem inc_tima_failing_input_eval :
    ((Memory.zeroed.write TIMA 0xff).write TMA 0x42).inc_tima.read TIMA = 0x43 ∧
    ((Memory.zeroed.write TIMA 0xff).write TMA 0x42).inc_tima.read TIMA ≠ 0x42 ∧
    (((Memory.zeroed.write TIMA 0xff).write TMA 0x42).inc_tima.read IF).testBit 2 = false ∧
    ((Memory.zeroed.write TIMA 0xff).write TMA 0x42).inc_tima.read IE = 0x02 := by
  decide

/-- C3 (code evaluated at the failing input): a `Clock::tick` with
`m_cycles = 200` and LY = 0 (no 143 to 144 transition anywhere) sets bit 0
of the IE register at 0xFFFF and leaves the IF register at 0xFF0F zero, so
the VBlank request is neither gated on the LY transition nor recorded in
IF. -/
theorem clock_tick_failing_input_eval :
    ((Clock.tick { m_cycles := 200, dots := 0 } Memory.zeroed).2.read IE = 1) ∧
    ((Clock.tick { m_cycles := 200, dots := 0 } Memory.zeroed).2.read IF = 0) ∧
    ((Clock.tick { m_cycles := 200, dots := 0 } Memory.zeroed).2.read LY = 0) := by
  decide

/-- C4 (code evaluated at the failing input): `sub_8bit 0x05 0x03` (no
carry-in) returns result 0x02 with flag byte 0x50, i.e. C = 1, although the
claimed rule C = (a < b + c) gives 5 < 3 = false; the source computes the
carry as `b >= sum`. -/
theorem sub_8bit_failing_input_eval :
    sub_8bit 0x05 0x03 none = (0x02, 0x50) ∧ ¬(0x05 < 0x03 + 0) := by
  decide

/-- C5 (code evaluated at the failing input): `add_8bit 0x00 0x0f` with
carry-in 1 returns result 0x10 with flag byte 0x00, i.e. H = 0, although
the claimed rule H = ((a & 0xF) + (b & 0xF) + c) > 0xF gives 0 + 15 + 1 >
15 = true; the source folds the carry into b before taking the low nibble.
The concrete ADD scenario of the claim (0x0F + 0x01, no carry) does hold:
result 0x10, flag byte 0x20 (only H set). -/
theorem add_8bit_failing_input_eval :
    add_8bit 0x00 0x0f (some true) = (0x10, 0x00) ∧
    (0x00 % 16 + 0x0f % 16 + 1 > 0xf) ∧
    add_8bit 0x0f 0x01 none = (0x10, 0x20) := by
  decide

/-- C6 (code evaluated at the failing input): the primary dispatch table
has 112 entries, not 256, so the lookup `INSTRUCTION_SET[opcode]` performed
by `Cpu::execute` is out of bounds (a panic, not a diagnosable
illegal-opcode result) already for opcode byte 0x70. -/
theorem instruction_set_failing_input_eval :
    INSTRUCTION_SET.length = 112 ∧ execute_lookup 0x70 = none ∧ (0x70 : Nat) < 256 := by
  decide

/-- C7 (code evaluated at the failing input): starting from HL = 0xFFFF
(so H = 0xFF, L = 0xFF), `set_r8(L, 0x00)` stores HL = 0x0FF0 because the
source masks with `0x0ff0` instead of `0xff00`; afterwards the high byte of
HL (0x0F) differs from H (0xFF) and the low byte (0xF0) differs from L
(0x00), so the pair-consistency invariant is not preserved. -/
theorem set_r8_failing_input_eval :
    ((Registers.default.set_r16 R16.HL 0xffff).set_r8 R8.L 0x00).h = 0xff ∧
    ((Registers.default.set_r16 R16.HL 0xffff).set_r8 R8.L 0x00).l = 0x00 ∧
    ((Registers.default.set_r16 R16.HL 0xffff).set_r8 R8.L 0x00).hl = 0x0ff0 ∧
    ¬(((Registers.default.set_r16 R16.HL 0xffff).set_r8 R8.L 0x00).hl / 256 % 256 =
        ((Registers.default.set_r16 R16.HL 0xffff).set_r8 R8.L 0x00).h ∧
      ((Registers.default.set_r16 R16.HL 0xffff).set_r8 R8.L 0x00).hl % 256 =
        ((Registers.default.set_r16 R16.HL 0xffff).set_r8 R8.L 0x00).l) := by
  decide

/-- C9 (code evaluated at the failing input): starting with IME = 0,
executing EI through `Cpu::execute` sets IME = 1 already when the EI
instruction itself retires, so the instruction following EI (here NOP) runs
with IME = 1, contrary to the claimed one-instruction delay; the final DI
does leave IME = 0. -/
theorem ei_failing_input_eval :
    (Cpu.execute_with { registers := Registers.default, ime := false } ei).1.ime = true ∧
    (Cpu.execute_with
        (Cpu.execute_with { registers := Registers.default, ime := false } ei).1
        (fun c => (c, nop))).1.ime = true ∧
    (Cpu.execute_with
        (Cpu.execute_with
            (Cpu.execute_with { registers := Registers.default, ime := false } ei).1
            (fun c => (c, nop))).1
        di).1.ime = false := by
  decide

/-- C10 (code evaluated at the failing input): for the flags value with
only C set, `Into<u8>` produces the byte 0x80 (the source shifts the carry
by 7, landing on the Z bit), and `Flags::set` on that byte yields the flags
value with only Z set, so the round trip is not the identity. -/
theorem flags_roundtrip_failing_input_eval :
    Flags.toByte { zero := false, subtraction := false, half_carry := false, carry := true }
      = 0x80 ∧
    Flags.set { zero := false, subtraction := false, half_carry := false, carry := true } 0x80
      = { zero := true, subtraction := false, half_carry := false, carry := false } ∧
    Flags.set { zero := false, subtraction := false, half_carry := false, carry := true }
        (Flags.toByte { zero := false, subtraction := false, half_carry := false, carry := true })
      ≠ { zero := false, subtraction := false, half_carry := false, carry := true } := by
  decide

/-- Reading a just-written cell returns the written byte. -/
theorem Memory.read_write_self (m : Memory) (a v : Nat) : (m.write a v).read a = v := by
  simp [Memory.read, Memory.write]

/-- Reading any other cell is unaffected by a write. -/
theorem Memory.read_write_other {m : Memory} {a b v : Nat} (hb : b ≠ a) :
    (m.write a v).read b = m.read b := by
  simp [Memory.read, Memory.write, hb]

/-- The register file after `push_stack`: SP decremented twice (wrapping). -/
theorem push_stack_fst (n16 : Nat) (regs : Registers) (mem : Memory) :
    (push_stack n16 regs mem).1 =
      (regs.set_r16 R16.SP ((regs.sp + 65535) % 65536)).set_r16 R16.SP
        (((regs.set_r16 R16.SP ((regs.sp + 65535) % 65536)).sp + 65535) % 65536) := rfl

/-- The memory after `push_stack`: high byte at SP - 1, low byte at SP - 2. -/
theorem push_stack_snd (n16 : Nat) (regs : Registers) (mem : Memory) :
    (push_stack n16 regs mem).2 =
      (mem.write (regs.set_r16 R16.SP ((regs.sp + 65535) % 65536)).sp (n16 / 256 % 256)).write
        ((regs.set_r16 R16.SP ((regs.sp + 65535) % 65536)).set_r16 R16.SP
            (((regs.set_r16 R16.SP ((regs.sp + 65535) % 65536)).sp + 65535) % 65536)).sp
        (n16 % 256) := rfl

/-- The register file after `pop_stack`: SP incremented twice (wrapping) and
the target register set to low + high * 256. -/
theorem pop_stack_fst (r16 : R16) (regs : Registers) (mem : Memory) :
    (pop_stack r16 regs mem).1 =
      ((regs.set_r16 R16.SP ((regs.sp + 1) % 65536)).set_r16 R16.SP
          (((regs.set_r16 R16.SP ((regs.sp + 1) % 65536)).sp + 1) % 65536)).set_r16 r16
        (mem.read regs.sp
          + mem.read (regs.set_r16 R16.SP ((regs.sp + 1) % 65536)).sp * 256) := rfl

/-- Writing SP stores the given value in the sp field. -/
theorem set_r16_SP_sp (r : Registers) (v : Nat) : (r.set_r16 R16.SP v).sp = v := rfl

/-- Reading back a register pair just written with `set_r16` returns the
written value, for each of the four pairs. -/
theorem get_set_pair (r : Registers) (v : Nat) (r16 : R16)
    (h : r16 = R16.BC ∨ r16 = R16.DE ∨ r16 = R16.HL ∨ r16 = R16.AF) :
    (r.set_r16 r16 v).get_r16 r16 = v := by
  rcases h with rfl | rfl | rfl | rfl <;> rfl

/-- Writing a register pair leaves SP unchanged. -/
theorem set_pair_sp (r : Registers) (v : Nat) (r16 : R16)
    (h : r16 = R16.BC ∨ r16 = R16.DE ∨ r16 = R16.HL ∨ r16 = R16.AF) :
    (r.set_r16 r16 v).sp = r.sp := by
  rcases h with rfl | rfl | rfl | rfl <;> rfl

/-- C8: for every 16-bit value n16, every register pair in
{BC, DE, HL, AF}, and every initial SP and memory, `push_stack n16`
followed by `pop_stack r16` leaves the pair equal to n16 and SP at its
initial value; the push decrements SP by 2, writing the high byte at
SP - 1 and the low byte at SP - 2, and the pop reads low then high before
incrementing SP by 2. -/
theorem push_pop_roundtrip (regs : Registers) (mem : Memory) (n16 : Nat) (r16 : R16)
    (hn : n16 < 65536) (hsp : regs.sp < 65536)
    (hr : r16 = R16.BC ∨ r16 = R16.DE ∨ r16 = R16.HL ∨ r16 = R16.AF) :
    (pop_stack r16 (push_stack n16 regs mem).1 (push_stack n16 regs mem).2).1.get_r16 r16
        = n16 ∧
    (pop_stack r16 (push_stack n16 regs mem).1 (push_stack n16 regs mem).2).1.sp = regs.sp ∧
    (push_stack n16 regs mem).1.sp = (regs.sp + 65534) % 65536 ∧
    (push_stack n16 regs mem).2.read ((regs.sp + 65535) % 65536) = n16 / 256 % 256 ∧
    (push_stack n16 regs mem).2.read ((regs.sp + 65534) % 65536) = n16 % 256 := by
  have h1 : ((regs.sp + 65535) % 65536 + 65535) % 65536 = (regs.sp + 65534) % 65536 := by
    omega
  have h2 : (((regs.sp + 65535) % 65536 + 65535) % 65536 + 1) % 65536
      = (regs.sp + 65535) % 65536 := by omega
  have h4 : (regs.sp + 65535) % 65536 ≠ ((regs.sp + 65535) % 65536 + 65535) % 65536 := by
    omega
  rw [pop_stack_fst]
  rw [get_set_pair _ _ _ hr, set_pair_sp _ _ _ hr]
  simp only [push_stack_fst, push_stack_snd, set_r16_SP_sp, h2]
  refine ⟨?_, ?_, ?_, ?_, ?_⟩
  · rw [Memory.read_write_self, Memory.read_write_other h4, Memory.read_write_self]
    omega
  · omega
  · omega
  · rw [Memory.read_write_other h4, Memory.read_write_self]
  · rw [← h1, Memory.read_write_self]

/-- Witness for C8 at n16 = 0xABCD, r16 = BC, the power-on register file and
a zeroed memory. -/
theorem push_pop_roundtrip_witness :
    (pop_stack R16.BC (push_stack 0xabcd Registers.default Memory.zeroed).1
        (push_stack 0xabcd Registers.default Memory.zeroed).2).1.get_r16 R16.BC = 0xabcd ∧
    (pop_stack R16.BC (push_stack 0xabcd Registers.default Memory.zeroed).1
        (push_stack 0xabcd Registers.default Memory.zeroed).2).1.sp = Registers.default.sp ∧
    (push_stack 0xabcd Registers.default Memory.zeroed).1.sp
        = (Registers.default.sp + 65534) % 65536 ∧
    (push_stack 0xabcd Registers.default Memory.zeroed).2.read
        ((Registers.default.sp + 65535) % 65536) = 0xabcd / 256 % 256 ∧
    (push_stack 0xabcd Registers.default Memory.zeroed).2.read
        ((Registers.default.sp + 65534) % 65536) = 0xabcd % 256 :=
  push_pop_roundtrip Registers.default Memory.zeroed 0xabcd R16.BC
    (by decide) (by decide) (Or.inl rfl)

end Gbr
